import Mathlib

/-!
Verification of the Tracer ray/sphere intersection core.

This file gives a shallow embedding, over exact rationals, of the three
source files of the repository:

* `tracer/quadric.py` — the batched quadric intersection solver
  (`QuadricGM.find_intersections` and `QuadricGM._select_coords`),
  here specialized to the sphere coefficients;
* `src/sphere_surface.py` — the scalar reference sphere solver
  (`SphereSurface.register_incoming`, `get_outgoing`, `set_radius`);
* `tracer/surface.py` — the `Surface` / `UniformSurface` wrappers
  (`register_incoming`, `set_absorptivity`, the constructor chain).

Floating point square roots are modelled by an explicit square-root
oracle parameter `s : ℚ → ℚ`; theorems that need its accuracy state it
as a hypothesis, and concrete evaluations instantiate it with `ratSqrt`,
which is exact on perfect squares.  Uninitialized numpy arrays
(`N.empty`) are modelled by explicit junk parameters.  Python `NaN`
occurs only as the sentinel written into the `select` array and tested
with `isnan`; it is modelled as `Option.none`.  Python exceptions are
modelled with `Except`; note `raise ValuError(...)` in the source raises
a `NameError` (the name `ValuError` is undefined), as do the reads of the
undefined names `frame`, `parent` and `energy`.
-/

/-- A 3-vector of exact rationals, standing for one column of the numpy
3×N arrays used throughout the source. -/
structure Vec3 where
  x : ℚ
  y : ℚ
  z : ℚ
deriving DecidableEq, Repr

/-- Componentwise sum, `v + d` in numpy. -/
def Vec3.add (a b : Vec3) : Vec3 := ⟨a.x + b.x, a.y + b.y, a.z + b.z⟩

/-- Componentwise difference, `a - b` in numpy. -/
def Vec3.sub (a b : Vec3) : Vec3 := ⟨a.x - b.x, a.y - b.y, a.z - b.z⟩

/-- Scalar multiple, `d * t` in numpy. -/
def Vec3.smul (t : ℚ) (a : Vec3) : Vec3 := ⟨t * a.x, t * a.y, t * a.z⟩

/-- Dot product, `N.vdot` in the source. -/
def Vec3.dot (a b : Vec3) : ℚ := a.x * b.x + a.y * b.y + a.z * b.z

/-- The Python exceptions the embedded code can raise: `NameError`
(evaluation of an undefined name) and `ValueError`. -/
inductive PyError where
  | nameError (msg : String) : PyError
  | valueError (msg : String) : PyError
deriving DecidableEq, Repr

/-- A Python object slot: the embedded constructors pass `None`, a
3-vector (the sphere center), or some other collaborator object through
untyped positional arguments, so the slots are modelled as a small
dynamic type. -/
inductive PyObj where
  | pyNone : PyObj
  | vec3 (v : Vec3) : PyObj
deriving DecidableEq, Repr

/-- RayBundle data carrier (collaborator, spec §3): parallel per-ray
arrays.  The intersection code reads `get_vertices`, `get_directions`
and `get_num_rays`; the number of rays is the common column count. -/
structure RayBundle where
  vertices : List Vec3
  directions : List Vec3
  energy : List ℚ
  parent : List ℕ
deriving Repr

/-- Modelled from the spec: `RayBundle.get_num_rays` (the bundle type is a
collaborator outside `src/`); spec §3 makes all per-ray arrays share the
same length N, so the direction count is used. -/
def RayBundle.numRays (b : RayBundle) : ℕ := b.directions.length

/-- Embeds `SphereSurface.set_radius` (`sphere_surface.py` lines 34-37).
The source executes `raise ValuError("Radius must be positive")`; the
name `ValuError` is undefined in the module, so evaluating it raises a
`NameError`, not a `ValueError`. -/
def set_radius (rad : ℚ) : Except PyError ℚ :=
  if rad ≤ 0 then .error (.nameError "name ValuError is not defined")
  else .ok rad

/-- Embeds `UniformSurface.set_absorptivity` (`surface.py` lines 96-99):
`if not 0 <= absorptivity <= 1: raise ValueError(...)`. -/
def set_absorptivity (absorptivity : ℚ) : Except PyError ℚ :=
  if ¬(0 ≤ absorptivity ∧ absorptivity ≤ 1) then
    .error (.valueError "Absorptivity must be in [0,1]")
  else .ok absorptivity

/-- State built by `Surface.__init__` (`surface.py` lines 17-28): the
`HasFrame` base receives `location`, `rotation`, and the surface keeps
`_geom` and `_opt`.  `HasFrame` is a collaborator outside `src/`; per
the spec it just records the two arguments. -/
structure SurfaceState where
  frameLocation : PyObj
  frameRotation : PyObj
  geom : PyObj
  opt : PyObj
  currentBundle : Option RayBundle
deriving Repr

/-- Embeds `Surface.__init__(geometry, optics, location=None,
rotation=None)`: `HasFrame.__init__(self, location, rotation)` then
`self._geom = geometry; self._opt = optics`. -/
def Surface.init (geometry optics location rotation : PyObj) : SurfaceState :=
  { frameLocation := location
    frameRotation := rotation
    geom := geometry
    opt := optics
    currentBundle := none }

/-- State built by `UniformSurface.__init__` (`surface.py` lines 88-91). -/
structure UniformSurfaceState extends SurfaceState where
  absorpt : ℚ
  mirror : Bool
deriving Repr

/-- Embeds `UniformSurface.__init__(location=None, rotation=None,
absorptivity=0., mirror=True)`: it calls
`Surface.__init__(self, location, rotation)`, so the `location` argument
arrives in `Surface.__init__`'s `geometry` parameter and `rotation` in
its `optics` parameter, while `Surface.__init__`'s own
`location`/`rotation` keep their `None` defaults; then
`set_absorptivity` runs (and may raise), then `mirror` is stored. -/
def UniformSurface.init (location rotation : PyObj) (absorptivity : ℚ)
    (mirror : Bool) : Except PyError UniformSurfaceState :=
  let base := Surface.init location rotation .pyNone .pyNone
  (set_absorptivity absorptivity).map fun a =>
    { base with absorpt := a, mirror := mirror }

/-- State built by `SphereSurface.__init__` (`sphere_surface.py` lines
13-26). -/
structure SphereSurfaceState extends UniformSurfaceState where
  rad : ℚ
  center : PyObj
  boundary : Vec3 → Bool

/-- Embeds `SphereSurface.__init__(center=None, absorptivity=0.,
radius=1., boundary=None)`: it calls
`UniformSurface.__init__(self, center, None, absorptivity)` (so `center`
travels down the `location` slot and from there into `_geom`), then
`set_radius(radius)` (which may raise), then stores `_center` and
`_boundary`.  The boundary collaborator is modelled by its
`in_bounds` predicate on a single point. -/
def SphereSurface.init (center : PyObj) (absorptivity radius : ℚ)
    (boundary : Vec3 → Bool) : Except PyError SphereSurfaceState :=
  (UniformSurface.init center .pyNone absorptivity true).bind fun u =>
  (set_radius radius).map fun r =>
    { u with rad := r, center := center, boundary := boundary }

/-- Embeds `Surface.register_incoming` (`surface.py` lines 63-78):
`self._current_bundle = ray_bundle` executes first, then
`return self._geom.find_intersections(frame, ray_bundle)` evaluates the
bare name `frame`, which is not defined in any enclosing scope, so the
call raises `NameError` before any geometry manager runs. -/
def Surface.registerIncoming (st : SurfaceState) (b : RayBundle) :
    SurfaceState × Except PyError (List (Option ℚ)) :=
  ({ st with currentBundle := some b },
   .error (.nameError "name frame is not defined"))

/-- Modelled from the spec: `optics.reflections` (the `optics` module is
outside `src/`); spec §6 gives the mirror law `d - 2 (d·n) n` applied
columnwise. -/
def reflections (dirs norms : List Vec3) : List Vec3 :=
  List.zipWith (fun d n => d.sub (Vec3.smul (2 * d.dot n) n)) dirs norms

/-- Boolean-mask column selection, numpy `a[:,selector]`. -/
def maskCols {α : Type} (l : List α) (sel : List Bool) : List α :=
  (l.zip sel).filterMap fun p => if p.2 then some p.1 else none

/-- Integer square root by exhaustive search (largest `k` with
`k * k ≤ n`), kept elementary so concrete instances evaluate. -/
def intSqrt (n : ℕ) : ℕ := ((List.range (n + 1)).filter fun k => k * k ≤ n).length - 1

/-- A square-root function that is exact on perfect squares: used to
instantiate the square-root oracle in concrete evaluations. -/
def ratSqrt (q : ℚ) : ℚ := (intSqrt q.num.toNat : ℚ) / (intSqrt q.den : ℚ)

/-- Sphere coefficient `A = |d|²` (`sphere_surface.py` line 58; also the
sphere specialization of the `get_ABC` hook of `QuadricGM`, per spec
§4.2, which gives the identical formula). -/
def sphereA (d : Vec3) : ℚ := d.x ^ 2 + d.y ^ 2 + d.z ^ 2

/-- Sphere coefficient `B = 2 d·(v−c)` (`sphere_surface.py` lines 59-61;
also the sphere `get_ABC` specialization of spec §4.2). -/
def sphereB (c v d : Vec3) : ℚ :=
  2 * (d.x * (v.x - c.x) + d.y * (v.y - c.y) + d.z * (v.z - c.z))

/-- Sphere coefficient `C = |v−c|² − r²` (`sphere_surface.py` lines
62-64; also the sphere `get_ABC` specialization of spec §4.2). -/
def sphereC (c : Vec3) (r : ℚ) (v : Vec3) : ℚ :=
  (v.x - c.x) ^ 2 + (v.y - c.y) ^ 2 + (v.z - c.z) ^ 2 - r ^ 2

/-- Discriminant `B² − 4AC` of the per-ray quadric equation. -/
def sphereDelta (c : Vec3) (r : ℚ) (v d : Vec3) : ℚ :=
  (sphereB c v d) ^ 2 - 4 * sphereA d * sphereC c r v

/-- First root `t0 = (−B − √Δ)/(2A)` computed with the square-root
oracle `s` (`sphere_surface.py` line 77). -/
def sphereT0 (s : ℚ → ℚ) (c : Vec3) (r : ℚ) (v d : Vec3) : ℚ :=
  (-(sphereB c v d) - s (sphereDelta c r v d)) / (2 * sphereA d)

/-- Second root `t1 = (−B + √Δ)/(2A)` (`sphere_surface.py` line 78). -/
def sphereT1 (s : ℚ → ℚ) (c : Vec3) (r : ℚ) (v d : Vec3) : ℚ :=
  (-(sphereB c v d) + s (sphereDelta c r v d)) / (2 * sphereA d)

/-- The root index chosen by `sphere_surface.py` lines 82-96 once at
least one root is positive: if both are positive, `N.argmin(hits)` (the
first index attaining the minimum, i.e. 0 when `t0 ≤ t1`), otherwise the
index of the positive root (`is_positive[0][0]`). -/
def sphereSelIdx (s : ℚ → ℚ) (c : Vec3) (r : ℚ) (v d : Vec3) : ℕ :=
  if 0 < sphereT0 s c r v d ∧ 0 < sphereT1 s c r v d then
    (if sphereT0 s c r v d ≤ sphereT1 s c r v d then 0 else 1)
  else
    (if 0 < sphereT0 s c r v d then 0 else 1)

/-- The selected root `hits[param]`. -/
def sphereSelT (s : ℚ → ℚ) (c : Vec3) (r : ℚ) (v d : Vec3) : ℚ :=
  if sphereSelIdx s c r v d = 0 then sphereT0 s c r v d else sphereT1 s c r v d

/-- The selected intersection point `coords[:,param] = v + d·t`
(`sphere_surface.py` line 79/98). -/
def spherePoint (s : ℚ → ℚ) (c : Vec3) (r : ℚ) (v d : Vec3) : Vec3 :=
  v.add (Vec3.smul (sphereSelT s c r v d) d)

/-- The sidedness test `dot = (c − hit)·(hit − vertex)` of
`sphere_surface.py` line 102. -/
def sphereSideDot (s : ℚ → ℚ) (c : Vec3) (r : ℚ) (v d : Vec3) : ℚ :=
  (c.sub (spherePoint s c r v d)).dot ((spherePoint s c r v d).sub v)

/-- The stored normal (`sphere_surface.py` lines 103-106): `dot ≤ 0`
means the ray hit an inner surface and the normal is `c − hit`;
otherwise it hit an outer surface and the normal is `hit − c`. -/
def sphereNormal (s : ℚ → ℚ) (c : Vec3) (r : ℚ) (v d : Vec3) : Vec3 :=
  if sphereSideDot s c r v d ≤ 0 then c.sub (spherePoint s c r v d)
  else (spherePoint s c r v d).sub c

/-- Per-ray outcome of one iteration of the `for ray in xrange(n)` loop
of `SphereSurface.register_incoming`: a negative-discriminant miss
appends only `inf` to `params`; a both-roots-nonpositive miss and an
out-of-bounds miss also append an empty placeholder to `vertices`; a hit
appends the parameter, the intersection point and the normal. -/
inductive RayOutcome where
  | missDelta : RayOutcome
  | missBehind : RayOutcome
  | missBounds : RayOutcome
  | hit (t : ℚ) (p : Vec3) (nrm : Vec3) : RayOutcome
deriving DecidableEq, Repr

/-- Embeds the body of the per-ray loop of
`SphereSurface.register_incoming` (`sphere_surface.py` lines 56-116). -/
def sphereRayOutcome (s : ℚ → ℚ) (c : Vec3) (r : ℚ) (inBounds : Vec3 → Bool)
    (v d : Vec3) : RayOutcome :=
  if sphereDelta c r v d < 0 then .missDelta
  else
    let numPos := (if 0 < sphereT0 s c r v d then 1 else 0) +
                  (if 0 < sphereT1 s c r v d then 1 else 0)
    if numPos = 0 then .missBehind
    else if inBounds (spherePoint s c r v d) then
      .hit (sphereSelT s c r v d) (spherePoint s c r v d) (sphereNormal s c r v d)
    else .missBounds

/-- The `params` entry contributed by a ray outcome: hits contribute the
selected root, every miss contributes `+infinity` (modelled `none`). -/
def RayOutcome.toParam : RayOutcome → Option ℚ
  | .hit t _ _ => some t
  | _ => none

/-- The `vertices` entry contributed by a ray outcome: a
negative-discriminant miss appends nothing, the other two misses append
an uninitialized `N.empty([3,1])` placeholder (modelled `some none`),
and a hit appends the intersection point. -/
def RayOutcome.toVertexEntry : RayOutcome → Option (Option Vec3)
  | .missDelta => none
  | .missBehind => some none
  | .missBounds => some none
  | .hit _ p _ => some (some p)

/-- The `norm` entry contributed by a ray outcome: only hits append. -/
def RayOutcome.toNormEntry : RayOutcome → Option Vec3
  | .hit _ _ nrm => some nrm
  | _ => none

/-- The stored state and return value of
`SphereSurface.register_incoming`: the returned `params` list, the
stored `_vertices` and `_norm` columns, and the stored bundle. -/
structure SphereTrace where
  params : List (Option ℚ)
  storedVertices : List (Option Vec3)
  storedNorm : List Vec3
  bundle : RayBundle

/-- Embeds `SphereSurface.register_incoming` (`sphere_surface.py` lines
40-124): iterate the per-ray solver over `range(get_num_rays())`,
collect `params`, `vertices` and `norm` by appending per the branch
taken, and store the bundle. -/
def sphereRegisterIncoming (s : ℚ → ℚ) (c : Vec3) (r : ℚ)
    (inBounds : Vec3 → Bool) (b : RayBundle) : SphereTrace :=
  let outs := (List.range b.numRays).map fun i =>
    sphereRayOutcome s c r inBounds (b.vertices.getD i ⟨0, 0, 0⟩)
      (b.directions.getD i ⟨0, 0, 0⟩)
  { params := outs.map RayOutcome.toParam
    storedVertices := outs.filterMap RayOutcome.toVertexEntry
    storedNorm := outs.filterMap RayOutcome.toNormEntry
    bundle := b }

/-- Embeds `SphereSurface.get_outgoing` (`sphere_surface.py` lines
126-144).  Line 134 computes
`optics.reflections(self._current_bundle.get_directions()[:,selector], self._norm)`
(note: the full stored `_norm`, not the selected columns); line 136 then
evaluates the bare name `parent`, which is undefined in every enclosing
scope (as is `energy` on line 141), so the call raises `NameError`. -/
def sphereGetOutgoing (trace : SphereTrace) (selector : List Bool) :
    Except PyError RayBundle :=
  let _dirs := reflections (maskCols trace.bundle.directions selector)
    trace.storedNorm
  .error (.nameError "name parent is not defined")

/-- Python truncation toward zero, the effect of `N.int_` on a float. -/
def pyTrunc (q : ℚ) : ℤ := q.num.tdiv (q.den : ℤ)

/-- The `hits` column of ray `i` built by `quadric.py` lines 44-50,
specialized to the sphere coefficients: `hits = N.empty((2,n))` leaves
columns with `Δ < 0` uninitialized (junk parameter `junkH`); columns
with `Δ ≥ 0` and `A ≤ 1e-10` (`almost_planar`) get the linear solution
`−C/B` in both rows; the remaining columns get
`(−B ∓ √Δ)/(2A)` (`pm = [-1, 1]`, so row 0 is `t0`, row 1 is `t1`). -/
def quadricHits (s : ℚ → ℚ) (junkH : ℕ → ℚ × ℚ) (c : Vec3) (r : ℚ)
    (v d : ℕ → Vec3) (i : ℕ) : ℚ × ℚ :=
  if 0 ≤ sphereDelta c r (v i) (d i) then
    if sphereA (d i) ≤ 1 / 10 ^ 10 then
      (-(sphereC c r (v i)) / sphereB c (v i) (d i),
       -(sphereC c r (v i)) / sphereB c (v i) (d i))
    else (sphereT0 s c r (v i) (d i), sphereT1 s c r (v i) (d i))
  else junkH i

/-- The columns selected by `one_pos = N.logical_xor(*is_positive)` in
`_select_coords` (`quadric.py` line 104), in increasing column order;
note this is computed over the whole `hits` array, including the
uninitialized columns of rays with `Δ < 0`. -/
def quadricOnePosCols (s : ℚ → ℚ) (junkH : ℕ → ℚ × ℚ) (c : Vec3) (r : ℚ)
    (v d : ℕ → Vec3) (n : ℕ) : List ℕ :=
  (List.range n).filter fun i =>
    decide (Xor' (0 < (quadricHits s junkH c r v d i).1)
      (0 < (quadricHits s junkH c r v d i).2))

/-- The `select` entry of ray `i` after `QuadricGM._select_coords`
(`quadric.py` lines 76-107) runs on the full `hits` array.  The code
assigns `NaN` at `logical_or(*is_positive)` positions, then overwrites
all of them: both-positive columns get row 0, and the one-positive
columns get `N.nonzero(is_positive[:,one_pos])[0]` — row indices emitted
in row-major order (all the row-0 hits first), assigned back in column
order, so a one-positive column receives 0 exactly when its rank among
the one-positive columns is below the number of one-positive columns
whose row 0 is positive.  Columns with neither root positive are never
assigned and keep the uninitialized `N.empty` contents (junk parameter
`junkS`; `none` models a junk `NaN`). -/
def quadricSelect (s : ℚ → ℚ) (junkH : ℕ → ℚ × ℚ) (junkS : ℕ → Option ℚ)
    (c : Vec3) (r : ℚ) (v d : ℕ → Vec3) (n i : ℕ) : Option ℚ :=
  let h := quadricHits s junkH c r v d i
  if 0 < h.1 ∧ 0 < h.2 then some 0
  else if Xor' (0 < h.1) (0 < h.2) then
    let cols := quadricOnePosCols s junkH c r v d n
    let row0Count := cols.countP fun j => decide (0 < (quadricHits s junkH c r v d j).1)
    some (if cols.indexOf i < row0Count then 0 else 1)
  else junkS i

/-- Whether ray `i` is still in `any_inters` after line 58 of
`quadric.py` (`any_inters[missed_anyway] = False`): its discriminant is
nonnegative and its `select` entry is not `NaN`. -/
def quadricActive (s : ℚ → ℚ) (junkH : ℕ → ℚ × ℚ) (junkS : ℕ → Option ℚ)
    (c : Vec3) (r : ℚ) (v d : ℕ → Vec3) (n i : ℕ) : Prop :=
  0 ≤ sphereDelta c r (v i) (d i) ∧
    (quadricSelect s junkH junkS c r v d n i).isSome = true

instance (s : ℚ → ℚ) (junkH : ℕ → ℚ × ℚ) (junkS : ℕ → Option ℚ)
    (c : Vec3) (r : ℚ) (v d : ℕ → Vec3) (n i : ℕ) :
    Decidable (quadricActive s junkH junkS c r v d n i) := by
  unfold quadricActive
  infer_instance

/-- The integer index `N.int_(select[any_inters])` used by `N.choose`
for an active ray. -/
def quadricSelIdx (s : ℚ → ℚ) (junkH : ℕ → ℚ × ℚ) (junkS : ℕ → Option ℚ)
    (c : Vec3) (r : ℚ) (v d : ℕ → Vec3) (n i : ℕ) : ℤ :=
  pyTrunc ((quadricSelect s junkH junkS c r v d n i).getD 0)

/-- Embeds `QuadricGM.find_intersections` (`quadric.py` lines 10-74)
specialized with the sphere `get_ABC`, up to the returned `params`
array.  `params` starts filled with `+infinity` (modelled `none`) and
active rays are overwritten by `N.choose(select, hits[:,any_inters])`,
which raises `ValueError` when some converted `select` index falls
outside `{0, 1}`. -/
def quadricFindIntersections (s : ℚ → ℚ) (junkH : ℕ → ℚ × ℚ)
    (junkS : ℕ → Option ℚ) (c : Vec3) (r : ℚ) (b : RayBundle) :
    Except String (List (Option ℚ)) :=
  let n := b.numRays
  let v := fun i => b.vertices.getD i ⟨0, 0, 0⟩
  let d := fun i => b.directions.getD i ⟨0, 0, 0⟩
  if ∀ i ∈ List.range n, quadricActive s junkH junkS c r v d n i →
      quadricSelIdx s junkH junkS c r v d n i = 0 ∨
      quadricSelIdx s junkH junkS c r v d n i = 1 then
    .ok ((List.range n).map fun i =>
      if quadricActive s junkH junkS c r v d n i then
        some (if quadricSelIdx s junkH junkS c r v d n i = 0 then
                (quadricHits s junkH c r v d i).1
              else (quadricHits s junkH c r v d i).2)
      else none)
  else .error "ValueError"

/-- The origin, used as sphere center in the concrete scenarios. -/
def centerZero : Vec3 := ⟨0, 0, 0⟩

/-- A boundary whose `in_bounds` accepts every point. -/
def bndAll : Vec3 → Bool := fun _ => true

/-- A boundary whose `in_bounds` rejects every point. -/
def bndNone : Vec3 → Bool := fun _ => false

/-- Concrete uninitialized-memory contents for the `hits` array. -/
def junkHZero : ℕ → ℚ × ℚ := fun _ => (0, 0)

/-- Concrete uninitialized-memory contents for the `select` array:
every unassigned entry happens to hold `0.0`. -/
def junkSel0 : ℕ → Option ℚ := fun _ => some 0

/-- Concrete uninitialized-memory contents for the `select` array:
every unassigned entry happens to hold `1.0`. -/
def junkSel1 : ℕ → Option ℚ := fun _ => some 1

lemma ratSqrt_four : ratSqrt 4 = 2 := by
  rw [ratSqrt]
  norm_num [show (4 : ℚ).num = 4 from rfl, show (4 : ℚ).den = 1 from rfl,
    show (4 : ℤ).toNat = 4 from rfl,
    (by decide : intSqrt 4 = 2), (by decide : intSqrt 1 = 1)]

/-- C4: `Surface.register_incoming` stores the bundle as the current
bundle, but it does not return the geometry manager's intersections for
the surface's frame: the source reads the undefined bare name `frame`
(`surface.py` line 78), so every call raises `NameError` after storing
the bundle, and `find_intersections` is never reached. -/
theorem C4_register_incoming_name_error (st : SurfaceState) (b : RayBundle) :
    (Surface.registerIncoming st b).1.currentBundle = some b ∧
      (Surface.registerIncoming st b).2 =
        .error (.nameError "name frame is not defined") :=
  ⟨rfl, rfl⟩

/-- C5: `SphereSurface.get_outgoing` never builds the selected outgoing
bundle: after computing the reflected directions (from the full stored
normals, not the selected columns), the source reads the undefined bare
names `parent` (line 136) and `energy` (line 141), so every call raises
`NameError` and no `RayBundle` is returned. -/
theorem C5_get_outgoing_name_error (trace : SphereTrace) (selector : List Bool) :
    sphereGetOutgoing trace selector =
      .error (.nameError "name parent is not defined") :=
  rfl

/-- C7: `set_absorptivity` validates `[0,1]` exactly as claimed
(rejecting `1.5` and `-0.1` with `ValueError`, accepting `0` and `1`),
but `set_radius` does not raise a validation error on a non-positive
radius: the source misspells `ValuError`, an undefined name, so the call
raises `NameError` instead of the claimed validation error. -/
theorem C7_setters_validation :
    set_radius 0 = .error (.nameError "name ValuError is not defined") ∧
    set_radius (-2) = .error (.nameError "name ValuError is not defined") ∧
    set_radius 0 ≠ .error (.valueError "Radius must be positive") ∧
    set_absorptivity (3 / 2) =
      .error (.valueError "Absorptivity must be in [0,1]") ∧
    set_absorptivity (-1 / 10) =
      .error (.valueError "Absorptivity must be in [0,1]") ∧
    set_absorptivity 0 = .ok 0 ∧
    set_absorptivity 1 = .ok 1 := by
  refine ⟨?_, ?_, ?_, ?_, ?_, ?_, ?_⟩ <;>
    norm_num [set_radius, set_absorptivity]
  exact fun h => PyError.noConfusion h

/-- C10: the `UniformSurface` constructor passes its `location` and
`rotation` positional arguments into `Surface.__init__`'s `geometry` and
`optics` parameters, so they land in the `_geom` and `_opt` slots while
the `HasFrame` base receives only the `None` defaults; in particular
`SphereSurface(center, absorptivity, radius, boundary)` stores `center`
as the geometry-manager slot and `None` as the optics slot. -/
theorem C10_constructor_wiring (loc rot : PyObj) (a : ℚ) (m : Bool)
    (h0 : 0 ≤ a) (h1 : a ≤ 1) (center : PyObj) (r : ℚ) (hr : 0 < r)
    (bnd : Vec3 → Bool) :
    UniformSurface.init loc rot a m =
      .ok { frameLocation := .pyNone, frameRotation := .pyNone,
            geom := loc, opt := rot, currentBundle := none,
            absorpt := a, mirror := m } ∧
    SphereSurface.init center a r bnd =
      .ok { frameLocation := .pyNone, frameRotation := .pyNone,
            geom := center, opt := .pyNone, currentBundle := none,
            absorpt := a, mirror := true, rad := r, center := center,
            boundary := bnd } := by
  constructor <;>
    simp [UniformSurface.init, SphereSurface.init, Surface.init,
      set_absorptivity, set_radius, h0, h1, hr.not_le, Except.map, Except.bind]

/-- C10 witness: concrete constructor calls exercising the theorem. -/
theorem C10_constructor_wiring_witness :
    (0 : ℚ) ≤ 1 / 2 ∧ (1 : ℚ) / 2 ≤ 1 ∧ (0 : ℚ) < 2 ∧
    UniformSurface.init (.vec3 ⟨1, 2, 3⟩) (.vec3 ⟨4, 5, 6⟩) (1 / 2) false =
      .ok { frameLocation := .pyNone, frameRotation := .pyNone,
            geom := .vec3 ⟨1, 2, 3⟩, opt := .vec3 ⟨4, 5, 6⟩,
            currentBundle := none, absorpt := 1 / 2, mirror := false } ∧
    SphereSurface.init (.vec3 ⟨7, 8, 9⟩) (1 / 2) 2 bndAll =
      .ok { frameLocation := .pyNone, frameRotation := .pyNone,
            geom := .vec3 ⟨7, 8, 9⟩, opt := .pyNone, currentBundle := none,
            absorpt := 1 / 2, mirror := true, rad := 2,
            center := .vec3 ⟨7, 8, 9⟩, boundary := bndAll } :=
  ⟨by norm_num, by norm_num, by norm_num,
   (C10_constructor_wiring (.vec3 ⟨1, 2, 3⟩) (.vec3 ⟨4, 5, 6⟩) (1 / 2) false
      (by norm_num) (by norm_num) (.vec3 ⟨7, 8, 9⟩) 2 (by norm_num) bndAll).1,
   (C10_constructor_wiring (.vec3 ⟨1, 2, 3⟩) (.vec3 ⟨4, 5, 6⟩) (1 / 2) false
      (by norm_num) (by norm_num) (.vec3 ⟨7, 8, 9⟩) 2 (by norm_num) bndAll).2⟩

/-! Evaluation of the concrete scenario of spec §8: unit sphere at the
origin, ray from `(0,0,5)` with direction `(0,0,-1)`. -/

lemma sphereDelta_scenA : sphereDelta centerZero 1 ⟨0, 0, 5⟩ ⟨0, 0, -1⟩ = 4 := by
  norm_num [sphereDelta, sphereA, sphereB, sphereC, centerZero]

lemma sphereT0_scenA : sphereT0 ratSqrt centerZero 1 ⟨0, 0, 5⟩ ⟨0, 0, -1⟩ = 4 := by
  rw [sphereT0, sphereDelta_scenA, ratSqrt_four]
  norm_num [sphereA, sphereB, centerZero]

lemma sphereT1_scenA : sphereT1 ratSqrt centerZero 1 ⟨0, 0, 5⟩ ⟨0, 0, -1⟩ = 6 := by
  rw [sphereT1, sphereDelta_scenA, ratSqrt_four]
  norm_num [sphereA, sphereB, centerZero]

lemma sphereSelT_scenA : sphereSelT ratSqrt centerZero 1 ⟨0, 0, 5⟩ ⟨0, 0, -1⟩ = 4 := by
  rw [sphereSelT, sphereSelIdx, sphereT0_scenA, sphereT1_scenA]
  norm_num

lemma spherePoint_scenA :
    spherePoint ratSqrt centerZero 1 ⟨0, 0, 5⟩ ⟨0, 0, -1⟩ = ⟨0, 0, 1⟩ := by
  rw [spherePoint, sphereSelT_scenA]
  norm_num [Vec3.add, Vec3.smul]

lemma sphereNormal_scenA :
    sphereNormal ratSqrt centerZero 1 ⟨0, 0, 5⟩ ⟨0, 0, -1⟩ = ⟨0, 0, 1⟩ := by
  rw [sphereNormal, sphereSideDot, spherePoint_scenA]
  norm_num [Vec3.sub, Vec3.dot, centerZero]

lemma sphereRayOutcome_scenA :
    sphereRayOutcome ratSqrt centerZero 1 bndAll ⟨0, 0, 5⟩ ⟨0, 0, -1⟩ =
      .hit 4 ⟨0, 0, 1⟩ ⟨0, 0, 1⟩ := by
  simp only [sphereRayOutcome, sphereDelta_scenA, sphereT0_scenA, sphereT1_scenA,
    sphereSelT_scenA, spherePoint_scenA, sphereNormal_scenA, bndAll]
  norm_num

/-- C8: for the unit sphere at the origin with an all-accepting
boundary, the single ray from `(0,0,5)` with direction `(0,0,-1)` yields
`params = [4]`, stored intersection vertex `(0,0,1)` and stored normal
`(0,0,1)` from `SphereSurface.register_incoming`. -/
theorem C8_concrete_scenario :
    (sphereRegisterIncoming ratSqrt centerZero 1 bndAll
        ⟨[⟨0, 0, 5⟩], [⟨0, 0, -1⟩], [1], [0]⟩).params = [some 4] ∧
    (sphereRegisterIncoming ratSqrt centerZero 1 bndAll
        ⟨[⟨0, 0, 5⟩], [⟨0, 0, -1⟩], [1], [0]⟩).storedVertices =
      [some ⟨0, 0, 1⟩] ∧
    (sphereRegisterIncoming ratSqrt centerZero 1 bndAll
        ⟨[⟨0, 0, 5⟩], [⟨0, 0, -1⟩], [1], [0]⟩).storedNorm = [⟨0, 0, 1⟩] := by
  simp [sphereRegisterIncoming, RayBundle.numRays,
    show List.range 1 = [0] from rfl,
    sphereRayOutcome_scenA, RayOutcome.toParam, RayOutcome.toVertexEntry,
    RayOutcome.toNormEntry]

/-- C6: in `SphereSurface.register_incoming`, once the discriminant is
nonnegative and some root is positive, the selected root is positive and
the boundary test decides the result: if `in_bounds` rejects the
selected intersection point the ray is reported as a miss
(`params` entry `+infinity`) despite the valid algebraic root, and if it
accepts the point the `params` entry is the selected root. -/
theorem C6_boundary_clipping (s : ℚ → ℚ) (c : Vec3) (r : ℚ)
    (inBounds : Vec3 → Bool) (v d : Vec3)
    (hd : 0 ≤ sphereDelta c r v d)
    (hpos : 0 < sphereT0 s c r v d ∨ 0 < sphereT1 s c r v d) :
    0 < sphereSelT s c r v d ∧
    (inBounds (spherePoint s c r v d) = false →
      sphereRayOutcome s c r inBounds v d = .missBounds ∧
      (sphereRayOutcome s c r inBounds v d).toParam = none) ∧
    (inBounds (spherePoint s c r v d) = true →
      sphereRayOutcome s c r inBounds v d =
        .hit (sphereSelT s c r v d) (spherePoint s c r v d)
          (sphereNormal s c r v d) ∧
      (sphereRayOutcome s c r inBounds v d).toParam =
        some (sphereSelT s c r v d)) := by
  have hdn : ¬sphereDelta c r v d < 0 := not_lt.mpr hd
  have hnum : ¬((if 0 < sphereT0 s c r v d then 1 else 0) +
      (if 0 < sphereT1 s c r v d then 1 else 0) = 0) := by
    rcases hpos with h | h <;> simp [h]
  have hsel : 0 < sphereSelT s c r v d := by
    rw [sphereSelT, sphereSelIdx]
    by_cases hb : 0 < sphereT0 s c r v d ∧ 0 < sphereT1 s c r v d
    · rw [if_pos hb]
      by_cases hle : sphereT0 s c r v d ≤ sphereT1 s c r v d
      · rw [if_pos hle, if_pos rfl]; exact hb.1
      · rw [if_neg hle, if_neg one_ne_zero]; exact hb.2
    · rw [if_neg hb]
      by_cases h0 : 0 < sphereT0 s c r v d
      · rw [if_pos h0, if_pos rfl]; exact h0
      · rw [if_neg h0, if_neg one_ne_zero]
        rcases hpos with h | h
        · exact absurd h h0
        · exact h
  refine ⟨hsel, fun hb => ?_, fun hb => ?_⟩
  · have houtc : sphereRayOutcome s c r inBounds v d = .missBounds := by
      simp only [sphereRayOutcome]
      rw [if_neg hdn, if_neg hnum, hb]
      simp
    exact ⟨houtc, by rw [houtc]; rfl⟩
  · have houtc : sphereRayOutcome s c r inBounds v d =
        .hit (sphereSelT s c r v d) (spherePoint s c r v d)
          (sphereNormal s c r v d) := by
      simp only [sphereRayOutcome]
      rw [if_neg hdn, if_neg hnum, hb]
      simp
    exact ⟨houtc, by rw [houtc]; rfl⟩

/-- C6 witness: the scenario-A ray with an all-rejecting boundary is
forced to a miss even though its selected root is `4 > 0`. -/
theorem C6_boundary_clipping_witness :
    (0 : ℚ) ≤ sphereDelta centerZero 1 ⟨0, 0, 5⟩ ⟨0, 0, -1⟩ ∧
    0 < sphereT0 ratSqrt centerZero 1 ⟨0, 0, 5⟩ ⟨0, 0, -1⟩ ∧
    sphereRayOutcome ratSqrt centerZero 1 bndNone ⟨0, 0, 5⟩ ⟨0, 0, -1⟩ =
      .missBounds :=
  ⟨by rw [sphereDelta_scenA]; norm_num,
   by rw [sphereT0_scenA]; norm_num,
   (((C6_boundary_clipping ratSqrt centerZero 1 bndNone ⟨0, 0, 5⟩ ⟨0, 0, -1⟩
        (by rw [sphereDelta_scenA]; norm_num)
        (Or.inl (by rw [sphereT0_scenA]; norm_num))).2.1) rfl).1⟩

/-! Evaluation of the inside-origin scenario: unit sphere at the origin,
ray starting at the center with direction `(0,0,1)`. -/

lemma sphereDelta_scenD : sphereDelta centerZero 1 ⟨0, 0, 0⟩ ⟨0, 0, 1⟩ = 4 := by
  norm_num [sphereDelta, sphereA, sphereB, sphereC, centerZero]

lemma sphereT0_scenD : sphereT0 ratSqrt centerZero 1 ⟨0, 0, 0⟩ ⟨0, 0, 1⟩ = -1 := by
  rw [sphereT0, sphereDelta_scenD, ratSqrt_four]
  norm_num [sphereA, sphereB, centerZero]

lemma sphereT1_scenD : sphereT1 ratSqrt centerZero 1 ⟨0, 0, 0⟩ ⟨0, 0, 1⟩ = 1 := by
  rw [sphereT1, sphereDelta_scenD, ratSqrt_four]
  norm_num [sphereA, sphereB, centerZero]

lemma sphereSelT_scenD : sphereSelT ratSqrt centerZero 1 ⟨0, 0, 0⟩ ⟨0, 0, 1⟩ = 1 := by
  rw [sphereSelT, sphereSelIdx, sphereT0_scenD, sphereT1_scenD]
  norm_num

lemma spherePoint_scenD :
    spherePoint ratSqrt centerZero 1 ⟨0, 0, 0⟩ ⟨0, 0, 1⟩ = ⟨0, 0, 1⟩ := by
  rw [spherePoint, sphereSelT_scenD]
  norm_num [Vec3.add, Vec3.smul]

lemma sphereNormal_scenD :
    sphereNormal ratSqrt centerZero 1 ⟨0, 0, 0⟩ ⟨0, 0, 1⟩ = ⟨0, 0, -1⟩ := by
  rw [sphereNormal, sphereSideDot, spherePoint_scenD]
  norm_num [Vec3.sub, Vec3.dot, centerZero]

/-- C9 counterexample: for the ray starting at the center of the unit
sphere with direction `(0,0,1)`, `register_incoming` selects the exit
root `t = 1` and hit point `(0,0,1)`, but the stored normal is
`(0,0,-1)`: its dot product with the center-to-hit vector is negative,
so the normal points from the hit point toward the center, not from the
center toward the hit point as the claim states. -/
theorem C9_counterexample :
    sphereRayOutcome ratSqrt centerZero 1 bndAll ⟨0, 0, 0⟩ ⟨0, 0, 1⟩ =
      .hit 1 ⟨0, 0, 1⟩ ⟨0, 0, -1⟩ ∧
    Vec3.dot ⟨0, 0, -1⟩ (Vec3.sub ⟨0, 0, 1⟩ centerZero) < 0 := by
  constructor
  · simp only [sphereRayOutcome, sphereDelta_scenD, sphereT0_scenD,
      sphereT1_scenD, sphereSelT_scenD, spherePoint_scenD, sphereNormal_scenD,
      bndAll]
    norm_num
  · norm_num [Vec3.dot, Vec3.sub, centerZero]

/-- C9 (amended): a ray whose vertex lies strictly inside the sphere
(`C < 0`) with a nonzero direction has exactly one positive root (`t1`),
`register_incoming` selects it, the intersection point is the exit point
(it lies on the sphere and the direction leaves the sphere there), and
the stored normal is `c − hit`: it points from the hit point toward the
center (inner-surface branch of the sign rule), not from the center
toward the hit point. -/
theorem C9_inside_origin (s : ℚ → ℚ) (c : Vec3) (r : ℚ)
    (inBounds : Vec3 → Bool) (v d : Vec3)
    (hA : 0 < sphereA d)
    (hC : sphereC c r v < 0)
    (hs : s (sphereDelta c r v d) ^ 2 = sphereDelta c r v d)
    (hs0 : 0 ≤ s (sphereDelta c r v d))
    (hb : inBounds (spherePoint s c r v d) = true) :
    (¬0 < sphereT0 s c r v d ∧ 0 < sphereT1 s c r v d) ∧
    sphereSelT s c r v d = sphereT1 s c r v d ∧
    sphereRayOutcome s c r inBounds v d =
      .hit (sphereT1 s c r v d) (spherePoint s c r v d)
        (Vec3.sub c (spherePoint s c r v d)) ∧
    sphereC c r (spherePoint s c r v d) = 0 ∧
    0 < Vec3.dot d (Vec3.sub (spherePoint s c r v d) c) := by
  have hAne : sphereA d ≠ 0 := ne_of_gt hA
  have hdpos : 0 < sphereDelta c r v d := by
    rw [sphereDelta]
    nlinarith [sq_nonneg (sphereB c v d), mul_pos hA (neg_pos.mpr hC)]
  have hspos : 0 < s (sphereDelta c r v d) := by
    nlinarith [hs, hdpos, hs0]
  have hBlt : sphereB c v d < s (sphereDelta c r v d) := by
    have hs2 : s (sphereDelta c r v d) ^ 2 =
        (sphereB c v d) ^ 2 - 4 * sphereA d * sphereC c r v := by
      rw [hs, sphereDelta]
    nlinarith [hs2, hs0, mul_pos hA (neg_pos.mpr hC)]
  have hBgt : -(sphereB c v d) < s (sphereDelta c r v d) := by
    have hs2 : s (sphereDelta c r v d) ^ 2 =
        (sphereB c v d) ^ 2 - 4 * sphereA d * sphereC c r v := by
      rw [hs, sphereDelta]
    nlinarith [hs2, hs0, mul_pos hA (neg_pos.mpr hC)]
  have ht1 : 0 < sphereT1 s c r v d := by
    rw [sphereT1]
    exact div_pos (by linarith) (by linarith)
  have ht0 : sphereT0 s c r v d < 0 := by
    rw [sphereT0]
    exact div_neg_of_neg_of_pos (by linarith) (by linarith)
  have ht0n : ¬0 < sphereT0 s c r v d := not_lt.mpr ht0.le
  have hsel : sphereSelIdx s c r v d = 1 := by
    rw [sphereSelIdx, if_neg (fun h => ht0n h.1), if_neg ht0n]
  have hselT : sphereSelT s c r v d = sphereT1 s c r v d := by
    rw [sphereSelT, hsel, if_neg one_ne_zero]
  have hroot : sphereA d * sphereT1 s c r v d ^ 2 +
      sphereB c v d * sphereT1 s c r v d + sphereC c r v = 0 := by
    have hs2 : s (sphereDelta c r v d) ^ 2 =
        (sphereB c v d) ^ 2 - 4 * sphereA d * sphereC c r v := by
      rw [hs, sphereDelta]
    rw [sphereT1]
    field_simp
    linear_combination 2 * sphereA d ^ 2 * hs2
  have hpoint : sphereC c r (spherePoint s c r v d) = 0 := by
    have hexp : sphereC c r (spherePoint s c r v d) =
        sphereA d * sphereSelT s c r v d ^ 2 +
          sphereB c v d * sphereSelT s c r v d + sphereC c r v := by
      simp only [spherePoint, sphereC, sphereA, sphereB, Vec3.add, Vec3.smul]
      ring
    rw [hexp, hselT, hroot]
  have hAexp : d.x ^ 2 + d.y ^ 2 + d.z ^ 2 ≠ 0 := by
    rw [sphereA] at hAne
    exact hAne
  have hdirval : Vec3.dot d (Vec3.sub (spherePoint s c r v d) c) =
      s (sphereDelta c r v d) / 2 := by
    simp only [spherePoint, hselT, sphereT1, sphereA, sphereB, Vec3.dot,
      Vec3.sub, Vec3.add, Vec3.smul]
    field_simp
    ring
  have hexit : 0 < Vec3.dot d (Vec3.sub (spherePoint s c r v d) c) := by
    rw [hdirval]
    linarith
  have hside : sphereSideDot s c r v d ≤ 0 := by
    have hval : sphereSideDot s c r v d =
        -(sphereSelT s c r v d *
          Vec3.dot d (Vec3.sub (spherePoint s c r v d) c)) := by
      simp only [sphereSideDot, spherePoint, Vec3.dot, Vec3.sub, Vec3.add,
        Vec3.smul]
      ring
    rw [hval, hselT, hdirval]
    nlinarith [ht1, hspos]
  have hnormal : sphereNormal s c r v d = Vec3.sub c (spherePoint s c r v d) := by
    rw [sphereNormal, if_pos hside]
  have hnum : ¬((if 0 < sphereT0 s c r v d then 1 else 0) +
      (if 0 < sphereT1 s c r v d then 1 else 0) = 0) := by
    simp [ht1]
  have houtc : sphereRayOutcome s c r inBounds v d =
      .hit (sphereT1 s c r v d) (spherePoint s c r v d)
        (Vec3.sub c (spherePoint s c r v d)) := by
    simp only [sphereRayOutcome]
    rw [if_neg (not_lt.mpr hdpos.le), if_neg hnum, hb]
    simp [hselT, hnormal]
  exact ⟨⟨ht0n, ht1⟩, hselT, houtc, hpoint, hexit⟩

/-- C9 witness: the amended theorem applied to the concrete
inside-origin ray, discharging every hypothesis. -/
theorem C9_inside_origin_witness :
    0 < sphereA ⟨0, 0, 1⟩ ∧ sphereC centerZero 1 ⟨0, 0, 0⟩ < 0 ∧
    sphereRayOutcome ratSqrt centerZero 1 bndAll ⟨0, 0, 0⟩ ⟨0, 0, 1⟩ =
      .hit (sphereT1 ratSqrt centerZero 1 ⟨0, 0, 0⟩ ⟨0, 0, 1⟩)
        (spherePoint ratSqrt centerZero 1 ⟨0, 0, 0⟩ ⟨0, 0, 1⟩)
        (Vec3.sub centerZero (spherePoint ratSqrt centerZero 1 ⟨0, 0, 0⟩ ⟨0, 0, 1⟩)) :=
  ⟨by norm_num [sphereA], by norm_num [sphereC, centerZero],
   (C9_inside_origin ratSqrt centerZero 1 bndAll ⟨0, 0, 0⟩ ⟨0, 0, 1⟩
      (by norm_num [sphereA]) (by norm_num [sphereC, centerZero])
      (by rw [sphereDelta_scenD, ratSqrt_four]; norm_num)
      (by rw [sphereDelta_scenD, ratSqrt_four]; norm_num) rfl).2.2.1⟩

lemma sphereA_unitZ : sphereA ⟨0, 0, 1⟩ = 1 := by norm_num [sphereA]

lemma sphereDelta_scenB : sphereDelta centerZero 1 ⟨0, 0, 5⟩ ⟨0, 0, 1⟩ = 4 := by
  norm_num [sphereDelta, sphereA, sphereB, sphereC, centerZero]

lemma sphereT0_scenB : sphereT0 ratSqrt centerZero 1 ⟨0, 0, 5⟩ ⟨0, 0, 1⟩ = -6 := by
  rw [sphereT0, sphereDelta_scenB, ratSqrt_four]
  norm_num [sphereA, sphereB, centerZero]

lemma sphereT1_scenB : sphereT1 ratSqrt centerZero 1 ⟨0, 0, 5⟩ ⟨0, 0, 1⟩ = -4 := by
  rw [sphereT1, sphereDelta_scenB, ratSqrt_four]
  norm_num [sphereA, sphereB, centerZero]

lemma sphereDelta_scenC : sphereDelta centerZero 1 ⟨0, 0, 3⟩ ⟨0, 0, 1⟩ = 4 := by
  norm_num [sphereDelta, sphereA, sphereB, sphereC, centerZero]

lemma sphereT0_scenC : sphereT0 ratSqrt centerZero 1 ⟨0, 0, 3⟩ ⟨0, 0, 1⟩ = -4 := by
  rw [sphereT0, sphereDelta_scenC, ratSqrt_four]
  norm_num [sphereA, sphereB, centerZero]

lemma sphereT1_scenC : sphereT1 ratSqrt centerZero 1 ⟨0, 0, 3⟩ ⟨0, 0, 1⟩ = -2 := by
  rw [sphereT1, sphereDelta_scenC, ratSqrt_four]
  norm_num [sphereA, sphereB, centerZero]

lemma pyTrunc_zero : pyTrunc 0 = 0 := rfl

lemma pyTrunc_one : pyTrunc 1 = 1 := rfl

lemma sphereRayOutcome_bothNonpos (s : ℚ → ℚ) (c : Vec3) (r : ℚ)
    (inBounds : Vec3 → Bool) (v d : Vec3)
    (hdn : ¬sphereDelta c r v d < 0)
    (h1 : ¬0 < sphereT0 s c r v d) (h2 : ¬0 < sphereT1 s c r v d) :
    sphereRayOutcome s c r inBounds v d = .missBehind := by
  have hnum : (if 0 < sphereT0 s c r v d then 1 else 0) +
      (if 0 < sphereT1 s c r v d then 1 else 0) = 0 := by
    rw [if_neg h1, if_neg h2]
  simp only [sphereRayOutcome]
  rw [if_neg hdn, if_pos hnum]

lemma sphereRayOutcome_scenB :
    sphereRayOutcome ratSqrt centerZero 1 bndAll ⟨0, 0, 5⟩ ⟨0, 0, 1⟩ =
      .missBehind := by
  apply sphereRayOutcome_bothNonpos
  · rw [sphereDelta_scenB]; norm_num
  · rw [sphereT0_scenB]; norm_num
  · rw [sphereT1_scenB]; norm_num

lemma sphereRayOutcome_scenC :
    sphereRayOutcome ratSqrt centerZero 1 bndAll ⟨0, 0, 3⟩ ⟨0, 0, 1⟩ =
      .missBehind := by
  apply sphereRayOutcome_bothNonpos
  · rw [sphereDelta_scenC]; norm_num
  · rw [sphereT0_scenC]; norm_num
  · rw [sphereT1_scenC]; norm_num

/-- C1: the batched sphere-specialized solver and the scalar reference
solver disagree: for the single ray from `(0,0,5)` with direction
`(0,0,1)` (both roots negative, `t0 = -6`, `t1 = -4`), the scalar solver
reports a miss (`+infinity`), but the batched `_select_coords` assigns
its `NaN` discard sentinel to the rays with at least one positive root
(`logical_or` instead of its negation), leaving the select entry of this
ray uninitialized; when the uninitialized memory holds `0.0` the batched
solver returns the negative root `-6` instead of a miss. -/
theorem C1_batched_scalar_divergence :
    (sphereRegisterIncoming ratSqrt centerZero 1 bndAll
        ⟨[⟨0, 0, 5⟩], [⟨0, 0, 1⟩], [1], [0]⟩).params = [none] ∧
    quadricFindIntersections ratSqrt junkHZero junkSel0 centerZero 1
        ⟨[⟨0, 0, 5⟩], [⟨0, 0, 1⟩], [1], [0]⟩ = .ok [some (-6)] := by
  constructor
  · simp [sphereRegisterIncoming, RayBundle.numRays,
      show List.range 1 = [0] from rfl, sphereRayOutcome_scenB,
      RayOutcome.toParam]
  · norm_num [quadricFindIntersections, RayBundle.numRays,
      show List.range 1 = [0] from rfl,
      show (List.getD [(⟨0, 0, 5⟩ : Vec3)] 0 ⟨0, 0, 0⟩) = ⟨0, 0, 5⟩ from rfl,
      show (List.getD [(⟨0, 0, 1⟩ : Vec3)] 0 ⟨0, 0, 0⟩) = ⟨0, 0, 1⟩ from rfl,
      quadricActive, quadricSelect, quadricSelIdx, quadricHits,
      junkHZero, junkSel0, Xor', pyTrunc_zero,
      sphereDelta_scenB, sphereT0_scenB, sphereT1_scenB, sphereA_unitZ]

/-- C2: the default root-selection policy does not make a ray with both
roots nonpositive a miss in the batched solver: for the ray from
`(0,0,3)` with direction `(0,0,1)` (`t0 = -4`, `t1 = -2`), the scalar
solver returns `+infinity` as claimed, but `_select_coords` writes its
`NaN` sentinel to the wrong mask (`logical_or` of the positivity rows
instead of its negation) and leaves this ray's entry uninitialized; with
`1.0` in the uninitialized slot the batched solver selects the negative
root `-2` instead of reporting a miss. -/
theorem C2_root_selection_divergence :
    (sphereRegisterIncoming ratSqrt centerZero 1 bndAll
        ⟨[⟨0, 0, 3⟩], [⟨0, 0, 1⟩], [1], [0]⟩).params = [none] ∧
    quadricFindIntersections ratSqrt junkHZero junkSel1 centerZero 1
        ⟨[⟨0, 0, 3⟩], [⟨0, 0, 1⟩], [1], [0]⟩ = .ok [some (-2)] := by
  constructor
  · simp [sphereRegisterIncoming, RayBundle.numRays,
      show List.range 1 = [0] from rfl, sphereRayOutcome_scenC,
      RayOutcome.toParam]
  · norm_num [quadricFindIntersections, RayBundle.numRays,
      show List.range 1 = [0] from rfl,
      show (List.getD [(⟨0, 0, 3⟩ : Vec3)] 0 ⟨0, 0, 0⟩) = ⟨0, 0, 3⟩ from rfl,
      show (List.getD [(⟨0, 0, 1⟩ : Vec3)] 0 ⟨0, 0, 0⟩) = ⟨0, 0, 1⟩ from rfl,
      quadricActive, quadricSelect, quadricSelIdx, quadricHits,
      junkHZero, junkSel1, Xor', pyTrunc_one,
      sphereDelta_scenC, sphereT0_scenC, sphereT1_scenC, sphereA_unitZ]

lemma sphereRayOutcome_missDelta (s : ℚ → ℚ) (c : Vec3) (r : ℚ)
    (inBounds : Vec3 → Bool) (v d : Vec3)
    (h : sphereDelta c r v d < 0) :
    sphereRayOutcome s c r inBounds v d = .missDelta := by
  simp only [sphereRayOutcome]
  rw [if_pos h]

/-- C3: a negative discriminant is handled as a plain miss by both
solvers: the scalar solver's `params` entry for such a ray is
`+infinity`; the batched solver keeps its prefilled `+infinity` whenever
it returns at all; and a bundle consisting only of
negative-discriminant rays makes both solvers return successfully with
every entry `+infinity`, for any uninitialized-memory contents. -/
theorem C3_negative_discriminant_miss (s : ℚ → ℚ) (junkH : ℕ → ℚ × ℚ)
    (junkS : ℕ → Option ℚ) (c : Vec3) (r : ℚ) (inBounds : Vec3 → Bool)
    (b : RayBundle) :
    (∀ i, i < b.numRays →
      sphereDelta c r (b.vertices.getD i ⟨0, 0, 0⟩)
        (b.directions.getD i ⟨0, 0, 0⟩) < 0 →
      ((sphereRegisterIncoming s c r inBounds b).params)[i]? = some none) ∧
    (∀ i ps, i < b.numRays →
      sphereDelta c r (b.vertices.getD i ⟨0, 0, 0⟩)
        (b.directions.getD i ⟨0, 0, 0⟩) < 0 →
      quadricFindIntersections s junkH junkS c r b = .ok ps →
      ps[i]? = some none) ∧
    ((∀ i, i < b.numRays →
        sphereDelta c r (b.vertices.getD i ⟨0, 0, 0⟩)
          (b.directions.getD i ⟨0, 0, 0⟩) < 0) →
      quadricFindIntersections s junkH junkS c r b =
        .ok (List.replicate b.numRays none) ∧
      (sphereRegisterIncoming s c r inBounds b).params =
        List.replicate b.numRays none) := by
  refine ⟨?_, ?_, ?_⟩
  · intro i hi hneg
    simp only [sphereRegisterIncoming, List.getElem?_map,
      List.getElem?_range hi, Option.map_some']
    rw [sphereRayOutcome_missDelta s c r inBounds _ _ hneg]
    rfl
  · intro i ps hi hneg hok
    have hact : ¬quadricActive s junkH junkS c r
        (fun j => b.vertices.getD j ⟨0, 0, 0⟩)
        (fun j => b.directions.getD j ⟨0, 0, 0⟩) b.numRays i := by
      unfold quadricActive
      intro h
      exact absurd h.1 (not_le.mpr hneg)
    simp only [quadricFindIntersections] at hok
    split at hok
    · injection hok with hok
      subst hok
      rw [List.getElem?_map, List.getElem?_range hi, Option.map_some']
      rw [if_neg hact]
    · exact absurd hok (by simp)
  · intro hall
    have hact : ∀ i, i < b.numRays → ¬quadricActive s junkH junkS c r
        (fun j => b.vertices.getD j ⟨0, 0, 0⟩)
        (fun j => b.directions.getD j ⟨0, 0, 0⟩) b.numRays i := by
      intro i hi
      unfold quadricActive
      intro h
      exact absurd h.1 (not_le.mpr (hall i hi))
    constructor
    · simp only [quadricFindIntersections]
      rw [if_pos (fun i hi hacti =>
        absurd hacti (hact i (List.mem_range.mp hi)))]
      refine congrArg Except.ok (List.eq_replicate_iff.mpr ⟨by simp, ?_⟩)
      intro x hx
      rcases List.mem_map.mp hx with ⟨i, hi, rfl⟩
      exact if_neg (hact i (List.mem_range.mp hi))
    · simp only [sphereRegisterIncoming]
      refine List.eq_replicate_iff.mpr ⟨by simp, ?_⟩
      intro x hx
      rcases List.mem_map.mp hx with ⟨o, ho, rfl⟩
      rcases List.mem_map.mp ho with ⟨i, hi, rfl⟩
      rw [sphereRayOutcome_missDelta s c r inBounds _ _
        (hall i (List.mem_range.mp hi))]
      rfl

/-- C3 witness: a bundle consisting of the single negative-discriminant
ray from `(0,0,5)` with direction `(1,0,0)` (`Δ = -96`). -/
theorem C3_negative_discriminant_miss_witness :
    (∀ i, i < (⟨[⟨0, 0, 5⟩], [⟨1, 0, 0⟩], [1], [0]⟩ : RayBundle).numRays →
      sphereDelta centerZero 1
        ((⟨[⟨0, 0, 5⟩], [⟨1, 0, 0⟩], [1], [0]⟩ : RayBundle).vertices.getD i ⟨0, 0, 0⟩)
        ((⟨[⟨0, 0, 5⟩], [⟨1, 0, 0⟩], [1], [0]⟩ : RayBundle).directions.getD i ⟨0, 0, 0⟩) < 0) ∧
    quadricFindIntersections ratSqrt junkHZero junkSel0 centerZero 1
        ⟨[⟨0, 0, 5⟩], [⟨1, 0, 0⟩], [1], [0]⟩ =
      .ok (List.replicate
        (⟨[⟨0, 0, 5⟩], [⟨1, 0, 0⟩], [1], [0]⟩ : RayBundle).numRays none) ∧
    (sphereRegisterIncoming ratSqrt centerZero 1 bndAll
        ⟨[⟨0, 0, 5⟩], [⟨1, 0, 0⟩], [1], [0]⟩).params =
      List.replicate
        (⟨[⟨0, 0, 5⟩], [⟨1, 0, 0⟩], [1], [0]⟩ : RayBundle).numRays none := by
  have hall : ∀ i, i < (⟨[⟨0, 0, 5⟩], [⟨1, 0, 0⟩], [1], [0]⟩ : RayBundle).numRays →
      sphereDelta centerZero 1
        ((⟨[⟨0, 0, 5⟩], [⟨1, 0, 0⟩], [1], [0]⟩ : RayBundle).vertices.getD i ⟨0, 0, 0⟩)
        ((⟨[⟨0, 0, 5⟩], [⟨1, 0, 0⟩], [1], [0]⟩ : RayBundle).directions.getD i ⟨0, 0, 0⟩) < 0 := by
    intro i hi
    have h1 : i = 0 := Nat.lt_one_iff.mp hi
    subst h1
    norm_num [sphereDelta, sphereA, sphereB, sphereC, centerZero,
      show (List.getD [(⟨0, 0, 5⟩ : Vec3)] 0 ⟨0, 0, 0⟩) = ⟨0, 0, 5⟩ from rfl,
      show (List.getD [(⟨1, 0, 0⟩ : Vec3)] 0 ⟨0, 0, 0⟩) = ⟨1, 0, 0⟩ from rfl]
  exact ⟨hall,
    ((C3_negative_discriminant_miss ratSqrt junkHZero junkSel0 centerZero 1
        bndAll ⟨[⟨0, 0, 5⟩], [⟨1, 0, 0⟩], [1], [0]⟩).2.2 hall).1,
    ((C3_negative_discriminant_miss ratSqrt junkHZero junkSel0 centerZero 1
        bndAll ⟨[⟨0, 0, 5⟩], [⟨1, 0, 0⟩], [1], [0]⟩).2.2 hall).2⟩
